import Mathlib

/-!
Verification development for the IPC-2581 ECAD parser
(`InteractiveHtmlBom/ecad/ipc2581.py`).

The Python methods of `IPC2581Parser` are shallowly embedded as Lean
definitions.  Conventions used throughout:

* Python floats are modelled as real numbers (`ℝ`).
* A Python function that can raise is modelled with `PyResult`: `val` is a
  normal return, `exn` an uncaught exception (the string names the Python
  exception class).  Reading a local variable that was never assigned is an
  `UnboundLocalError`; indexing an empty element list with `[0]` is an
  `IndexError`; indexing a dict with a missing key is a `KeyError`.
* Python dicts with string keys are modelled as association lists built with
  `pyDictSet` (overwrite the first occurrence of the key, else append), read
  with `pyDictGet?` (first occurrence) and `pyDictIndex` (raising form).
* The XML document tree is external to the parser (it is the `xml.dom.minidom`
  library); following the specification it is modelled as typed read-only
  data: each `getElementsByTagName` traversal that the parser performs is one
  field of the `Document` structure (or of the per-element structures below),
  holding the matching elements in document order, and each attribute that the
  parser reads is a string field.  Numeric attributes that the source passes
  through `float(...)` appear already parsed as reals in `PolyStepNode`.
-/

/-- Result of running a piece of Python code: a returned value or an uncaught
exception (identified by the exception class name). -/
inductive PyResult (α : Type) where
  | val : α → PyResult α
  | exn : String → PyResult α

/-- Monadic sequencing of Python evaluation: an exception propagates. -/
def PyResult.bind {α β : Type} : PyResult α → (α → PyResult β) → PyResult β
  | .val a, f => f a
  | .exn m, _ => .exn m

instance : Monad PyResult where
  pure := PyResult.val
  bind := PyResult.bind

/-- Whether the computation ended in an exception. -/
def PyResult.isExn {α : Type} : PyResult α → Bool
  | .val _ => false
  | .exn _ => true

/-- Lookup in a Python dict modelled as an association list: first matching
key (keys are unique in dicts built by `pyDictSet`). -/
def pyDictGet? {α : Type} : List (String × α) → String → Option α
  | [], _ => none
  | (k0, v) :: rest, k => if k0 = k then some v else pyDictGet? rest k

/-- Python `d[k] = v` / `d.update(...)`: overwrite the first occurrence of the
key in place, otherwise append the new binding at the end. -/
def pyDictSet {α : Type} : List (String × α) → String → α → List (String × α)
  | [], k, v => [(k, v)]
  | (k0, v0) :: rest, k, v =>
    if k0 = k then (k0, v) :: rest else (k0, v0) :: pyDictSet rest k v

/-- Python `d[k]` in read position: raises `KeyError` when the key is absent. -/
def pyDictIndex {α : Type} (d : List (String × α)) (k : String) : PyResult α :=
  match pyDictGet? d k with
  | none => .exn "KeyError"
  | some v => .val v

/-- Adding an element to a Python `set`, modelled as an insertion-ordered
duplicate-free list (the set's real iteration order is unspecified; no result
in this development depends on it). -/
def setAdd (s : List String) (k : String) : List String :=
  if k ∈ s then s else s ++ [k]

/-- Values stored in the drawing dicts emitted by `process_PolyStep`:
strings, numbers, two-element coordinate lists, and Python `None`. -/
inductive PyVal where
  | str : String → PyVal
  | num : ℝ → PyVal
  | pt : ℝ → ℝ → PyVal
  | pynone : PyVal

/-- A Python dict with string keys and `PyVal` values, as emitted for each
drawing primitive. -/
abbrev Dict := List (String × PyVal)

/-- One element child of a PolyStep container, with the numeric attributes
already through `float(...)`.  `clockwise` keeps its raw attribute string, as
in the source, which compares it to the literal string `true`.  Element
children with any other tag match no branch of the dispatch and are skipped;
they are collapsed into `otherElem` (non-element child nodes are filtered out
by the `nodeType` check before the dispatch and are not modelled). -/
inductive PolyStepNode where
  | polyBegin : ℝ → ℝ → PolyStepNode
  | polyStepSegment : ℝ → ℝ → PolyStepNode
  | polyStepCurve : (x y centerX centerY : ℝ) → (clockwise : String) → PolyStepNode
  | otherElem : String → PolyStepNode

/-- `IPC2581Parser.convert_PolyStepCurve` (ipc2581.py lines 147-208).

Given three points and a direction it computes `[radius, startAngle,
endAngle]`.  The Python function body assigns, per spoke, either the pair
`radius`/`angle1` (axis-aligned branch) or `radius`/`angle1`/`startAngle`
(general branch) — and symmetrically `angle2`/`endAngle` for the end spoke,
where the general end-spoke branch assigns `angle2`/`endAngle` but does NOT
reassign `radius` (lines 194-203).  The return statement reads `radius`,
`startAngle` and `endAngle`; when an axis-aligned branch was taken the
corresponding `startAngle`/`endAngle` local was never assigned, which in
Python raises `UnboundLocalError`.  Locals that may be unassigned at the
return are therefore modelled as `Option ℝ` (`none` = never assigned), and
the `_angle1`/`_angle2` values mirror the dead stores to `angle1`/`angle2`
in the axis-aligned branches. -/
noncomputable def convert_PolyStepCurve (startX startY ctrX ctrY endX endY : ℝ)
    (cw : String) : PyResult (ℝ × ℝ × ℝ) :=
  let dX1 := ctrX - startX
  let dY1 := ctrY - startY
  let dX2 := ctrX - endX
  let dY2 := ctrY - endY
  let spoke1 : ℝ × Option ℝ :=
    if dX1 = 0 ∨ dY1 = 0 then
      -- the radius is either dX1 or dY1; angle1 is assigned but the return
      -- reads startAngle, which this branch never assigns
      if dX1 = 0 then
        let _angle1 : ℝ := if dY1 > 0 then 270 else 90
        (|dY1|, none)
      else
        let _angle1 : ℝ := if dX1 > 0 then 0 else 180
        (|dX1|, none)
    else
      let angle1 := Real.arctan (|dX1| / |dY1|) * (180 / Real.pi)
      (Real.sqrt (|dX1| ^ 2 + |dY1| ^ 2),
        some (if dX1 > 0 ∧ dY1 > 0 then 270 + angle1
              else if dX1 < 0 ∧ dY1 > 0 then 270 - angle1
              else if dX1 < 0 ∧ dY1 < 0 then 90 + angle1
              else 90 - angle1))
  let spoke2 : ℝ × Option ℝ :=
    if dX2 = 0 ∨ dY2 = 0 then
      -- the radius is either dX2 or dY2 (this overwrites the start-spoke
      -- radius); angle2 is assigned but endAngle is not
      if dX2 = 0 then
        let _angle2 : ℝ := if dY2 > 0 then 270 else 90
        (|dY2|, none)
      else
        let _angle2 : ℝ := if dX2 > 0 then 0 else 180
        (|dX2|, none)
    else
      -- lines 194-203: angle2 and endAngle are computed, radius is NOT
      -- recomputed here, so the start-spoke radius is kept
      let angle2 := Real.arctan (|dX2| / |dY2|) * (180 / Real.pi)
      (spoke1.1,
        some (if dX2 > 0 ∧ dY2 > 0 then 270 + angle2
              else if dX2 < 0 ∧ dY2 > 0 then 270 - angle2
              else if dX2 < 0 ∧ dY2 < 0 then 90 + angle2
              else 90 - angle2))
  if cw = "true" then
    match spoke1.2, spoke2.2 with
    | some startAngle, some endAngle => .val (spoke2.1, startAngle, endAngle)
    | _, _ => .exn "UnboundLocalError"
  else
    match spoke2.2, spoke1.2 with
    | some endAngle, some startAngle => .val (spoke2.1, endAngle, startAngle)
    | _, _ => .exn "UnboundLocalError"

/-- Loop body of `IPC2581Parser.process_PolyStep` (ipc2581.py lines 210-250),
carrying the current point `(NewX, NewY)` through the instruction list.  Note
the segment dict's misspelled key `wdith` (line 235), copied verbatim from the
source; the arc dict (lines 243-248) uses the correctly spelled key `width`. -/
noncomputable def processPolyStepFrom (width : PyVal) (NewX NewY : ℝ) :
    List PolyStepNode → PyResult (List Dict)
  | [] => .val []
  | p :: rest =>
    match p with
    | .polyBegin x y =>
      -- polygon start point
      processPolyStepFrom width x y rest
    | .polyStepSegment x y =>
      -- polygon draw line
      match processPolyStepFrom width x y rest with
      | .exn m => .exn m
      | .val more =>
        .val ([("type", PyVal.str "segment"),
               ("start", PyVal.pt NewX NewY),
               ("end", PyVal.pt x y),
               ("wdith", width)] :: more)
    | .polyStepCurve x y CtrX CtrY cwAttr =>
      -- polygon draw arc
      match convert_PolyStepCurve NewX NewY CtrX CtrY x y cwAttr with
      | .exn m => .exn m
      | .val arc =>
        match processPolyStepFrom width x y rest with
        | .exn m => .exn m
        | .val more =>
          .val ([("type", PyVal.str "arc"),
                 ("width", width),
                 ("start", PyVal.pt CtrX CtrY),
                 ("radius", PyVal.num arc.1),
                 ("startangle", PyVal.num arc.2.1),
                 ("endangle", PyVal.num arc.2.2)] :: more)
    | .otherElem _ => processPolyStepFrom width NewX NewY rest

/-- `IPC2581Parser.process_PolyStep` (ipc2581.py lines 210-250): the current
point starts at `(0, 0)` and the instruction list is processed in order.  The
source's default `width=0.1` is never used (every call site passes a width),
so `width` is a required argument here. -/
noncomputable def process_PolyStep (n : List PolyStepNode) (width : PyVal) :
    PyResult (List Dict) :=
  processPolyStepFrom width 0 0 n

/-- One `EntryLineDesc` element: its `id` attribute and the `lineWidth`
attributes of its `LineDesc` descendants in document order. -/
structure EntryLineDesc where
  id : String
  lineDescWidths : List String

/-- One `Layer` element: its `side`, `layerFunction` and `name` attributes. -/
structure Layer where
  side : String
  layerFunction : String
  name : String

/-- One `Polyline` element under a `LayerFeature`: the `id` attributes of its
`LineDescRef` descendants in document order, and its PolyStep children. -/
structure Polyline where
  lineDescRefIds : List String
  steps : List PolyStepNode

/-- One `LayerFeature` element: its `layerRef` attribute and its `Polyline`
descendants. -/
structure LayerFeature where
  layerRef : String
  polylines : List Polyline

/-- One `Profile` element: its `Polygon` descendants and `Cutout` descendants,
each given by its PolyStep children. -/
structure Profile where
  polygons : List (List PolyStepNode)
  cutouts : List (List PolyStepNode)

/-- One `Component` element: its `refDes`, `part`, `packageRef` and `layerRef`
attributes, and the `name`/`value` attribute pairs of its
`NonstandardAttribute` descendants in document order. -/
structure ComponentElem where
  refDes : String
  part : String
  packageRef : String
  layerRef : String
  nonstandardAttributes : List (String × String)

/-- The normalized component record built by `_parse` (the constructor call to
`common.Component` at ipc2581.py lines 398-403). -/
structure Component where
  ref : String
  val : String
  footprint : String
  layer : String
  attr : String
  extra_fields : List (String × String)

/-- The host configuration object; the parser reads exactly one flag. -/
structure Config where
  include_tracks : Bool

/-- The parsed XML document, as the typed read-only tree queries the parser
performs: the root element's tag and `revision` attribute, and the elements
each `getElementsByTagName` call over the whole document returns. -/
structure Document where
  rootTag : String
  rootRevision : String
  entryLineDescs : List EntryLineDesc
  layers : List Layer
  stepRefNames : List String
  profiles : List Profile
  cadHeaderUnits : List String
  layerFeatures : List LayerFeature
  components : List ComponentElem

/-- Loop of `IPC2581Parser.get_Line_Widths` (ipc2581.py lines 60-67):
`lines.update(id : first LineDesc's lineWidth)` per `EntryLineDesc`; the `[0]`
index raises `IndexError` when an `EntryLineDesc` has no `LineDesc`. -/
def get_Line_WidthsFrom (acc : List (String × String)) :
    List EntryLineDesc → PyResult (List (String × String))
  | [] => .val acc
  | l :: rest =>
    match l.lineDescWidths.head? with
    | none => .exn "IndexError"
    | some w => get_Line_WidthsFrom (pyDictSet acc l.id w) rest

/-- `IPC2581Parser.get_Line_Widths` (ipc2581.py lines 60-67): a dict from
line-style id to the `lineWidth` attribute string. -/
def get_Line_Widths (entries : List EntryLineDesc) :
    PyResult (List (String × String)) :=
  get_Line_WidthsFrom [] entries

/-- `IPC2581Parser.validate_IPC2581` (ipc2581.py lines 90-102): the root tag
must be `IPC-2581` and the `revision` attribute must not compare greater than
the single supported letter `C` under Python's lexicographic string order
(modelled by Lean's lexicographic `String` order, which likewise compares by
code point). -/
def validate_IPC2581 (pcb : Document) : Bool :=
  if pcb.rootTag ≠ "IPC-2581" then false
  else if "C" < pcb.rootRevision then false
  else true

/-- `IPC2581Parser.get_Component_Val` (ipc2581.py lines 104-112): start from
the `part` attribute; every `NonstandardAttribute` named `VALUE` overwrites
the value, so the last one wins. -/
def get_Component_Val (comp : ComponentElem) : String :=
  comp.nonstandardAttributes.foldl
    (fun val e => if e.1 = "VALUE" then e.2 else val) comp.part

/-- The `extra_fields` dict built by the component loop of `_parse`
(ipc2581.py lines 392-397): one `update` per `NonstandardAttribute`, so
duplicate names overwrite each other. -/
def build_extra_fields (nsAttrs : List (String × String)) :
    List (String × String) :=
  nsAttrs.foldl (fun d n => pyDictSet d n.1 n.2) []

/-- The component loop of `_parse` (ipc2581.py lines 388-404): each `Component`
element becomes a `Component` record with `attr` fixed to `Normal`. -/
def extractComponents (comps : List ComponentElem) : List Component :=
  comps.map (fun c =>
    ⟨c.refDes, get_Component_Val c, c.packageRef, c.layerRef, "Normal",
      build_extra_fields c.nonstandardAttributes⟩)

/-- `IPC2581Parser.get_Metadata` (ipc2581.py lines 114-118): the `name` of the
first `StepRef` (the `[0]` index raises `IndexError` when there is none) plus
three placeholder strings. -/
def get_Metadata (stepRefNames : List String) :
    PyResult (String × String × String × String) :=
  match stepRefNames.head? with
  | none => .exn "IndexError"
  | some t => .val (t, "", "", "")

/-- The six layer-name slots returned by `get_LayerNames`, in source order:
TopCuRef, BotCuRef, TopSilkRef, BotSilkRef, TopAsmRef, BotAsmRef. -/
abbrev LayerRefs :=
  Option String × Option String × Option String × Option String ×
    Option String × Option String

/-- Loop body of `IPC2581Parser.get_LayerNames` (ipc2581.py lines 131-142):
one `Layer` element updates at most one of the six slots, selected by its
`side` and `layerFunction` attributes; any other combination leaves all
slots unchanged. -/
def layerStep (acc : LayerRefs) (L : Layer) : LayerRefs :=
  match acc with
  | (TopCuRef, BotCuRef, TopSilkRef, BotSilkRef, TopAsmRef, BotAsmRef) =>
    if L.side = "TOP" then
      if L.layerFunction = "DOCUMENT" then
        (TopCuRef, BotCuRef, some L.name, BotSilkRef, TopAsmRef, BotAsmRef)
      else if L.layerFunction = "CONDUCTOR" then
        (some L.name, BotCuRef, TopSilkRef, BotSilkRef, TopAsmRef, BotAsmRef)
      else if L.layerFunction = "ASSEMBLY" then
        (TopCuRef, BotCuRef, TopSilkRef, BotSilkRef, some L.name, BotAsmRef)
      else
        (TopCuRef, BotCuRef, TopSilkRef, BotSilkRef, TopAsmRef, BotAsmRef)
    else if L.side = "BOTTOM" then
      if L.layerFunction = "DOCUMENT" then
        (TopCuRef, BotCuRef, TopSilkRef, some L.name, TopAsmRef, BotAsmRef)
      else if L.layerFunction = "CONDUCTOR" then
        (TopCuRef, some L.name, TopSilkRef, BotSilkRef, TopAsmRef, BotAsmRef)
      else if L.layerFunction = "ASSEMBLY" then
        (TopCuRef, BotCuRef, TopSilkRef, BotSilkRef, TopAsmRef, some L.name)
      else
        (TopCuRef, BotCuRef, TopSilkRef, BotSilkRef, TopAsmRef, BotAsmRef)
    else
      (TopCuRef, BotCuRef, TopSilkRef, BotSilkRef, TopAsmRef, BotAsmRef)

/-- `IPC2581Parser.get_LayerNames` (ipc2581.py lines 120-145): all six slots
start as `None` and every `Layer` element is folded over them in document
order; all six are returned even if a layer does not exist. -/
def get_LayerNames (layers : List Layer) : LayerRefs :=
  layers.foldl layerStep (none, none, none, none, none, none)

/-- Loop over the polylines of one matching `LayerFeature`
(ipc2581.py lines 294-300): `LineDescRef[0]` raises `IndexError` when absent,
`lines[LineName]` raises `KeyError` when the id is not in the line-width
dict, and the reconstructed drawings are appended in order. -/
noncomputable def processPolylines (lines : List (String × String)) :
    List Polyline → PyResult (List Dict)
  | [] => .val []
  | poly :: rest =>
    match poly.lineDescRefIds.head? with
    | none => .exn "IndexError"
    | some LineName =>
      match pyDictGet? lines LineName with
      | none => .exn "KeyError"
      | some LineWidth =>
        match process_PolyStep poly.steps (PyVal.str LineWidth) with
        | .exn m => .exn m
        | .val ds =>
          match processPolylines lines rest with
          | .exn m => .exn m
          | .val more => .val (ds ++ more)

/-- Loop over all `LayerFeature` elements (ipc2581.py lines 290-300): only
those whose `layerRef` equals the requested layer name are processed. -/
noncomputable def processLayerFeatures (lines : List (String × String))
    (layerName : String) : List LayerFeature → PyResult (List Dict)
  | [] => .val []
  | F :: rest =>
    if F.layerRef = layerName then
      match processPolylines lines F.polylines with
      | .exn m => .exn m
      | .val ds =>
        match processLayerFeatures lines layerName rest with
        | .exn m => .exn m
        | .val more => .val (ds ++ more)
    else processLayerFeatures lines layerName rest

/-- `IPC2581Parser.get_LayerDrawings` (ipc2581.py lines 276-306): an absent
(`None`) layer name short-circuits to an empty drawing list; otherwise every
polyline on the matching layer features is reconstructed. -/
noncomputable def get_LayerDrawings (features : List LayerFeature)
    (layerName : Option String) (lines : List (String × String)) :
    PyResult (List Dict) :=
  match layerName with
  | none => .val []
  | some nm => processLayerFeatures lines nm features

/-- The unit dispatch written at ipc2581.py lines 315-320: an `if`/`elif`
chain with no `else`, returning a fixed width for the three recognized units
and falling through to the Python value `None` (modelled `none`) otherwise.
In the source this chain is unreachable — `set_outlineWidth` raises
`AttributeError` on line 313 before the unit string is ever read (see
`set_outlineWidth`) — so this definition only records the dead code. -/
noncomputable def set_outlineWidthUnit (unit : String) : Option ℝ :=
  if unit = "INCH" then some 0.005
  else if unit = "MILLIMETER" then some 0.127
  else if unit = "MICRON" then some 127.0
  else none

/-- `IPC2581Parser.set_outlineWidth` (ipc2581.py lines 308-321): its first
statement is `pcb.getElementByTagName('CadHeader')[0].getAttribute('units')`,
and `getElementByTagName` — a misspelling of `getElementsByTagName` — is not
an attribute of minidom document objects, so every invocation raises
`AttributeError` in the parser's own code before the units attribute is read.
The unit dispatch of lines 315-320 is dead code (recorded separately as
`set_outlineWidthUnit`). -/
def set_outlineWidth (_pcb : Document) : PyResult (Option ℝ) :=
  .exn "AttributeError"

/-- The width value passed on to `process_PolyStep` by `get_Board_Outline`:
a number, or Python `None` when `set_outlineWidth` fell through. -/
noncomputable def outlineWidthVal : Option ℝ → PyVal
  | some r => PyVal.num r
  | none => PyVal.pynone

/-- Cutout loop of `IPC2581Parser.get_Board_Outline` (ipc2581.py lines
269-272): every `Cutout` is reconstructed and appended. -/
noncomputable def processCutouts (width : PyVal) :
    List (List PolyStepNode) → PyResult (List Dict)
  | [] => .val []
  | c :: rest =>
    match process_PolyStep c width with
    | .exn m => .exn m
    | .val ds =>
      match processCutouts width rest with
      | .exn m => .exn m
      | .val more => .val (ds ++ more)

/-- `IPC2581Parser.get_Board_Outline` (ipc2581.py lines 252-274): the first
`Profile` (IndexError when absent), the default outline width, the first
`Polygon` child (IndexError when absent), then all `Cutout` elements. -/
noncomputable def get_Board_Outline (pcb : Document) : PyResult (List Dict) :=
  match pcb.profiles.head? with
  | none => .exn "IndexError"
  | some profile => do
    let outline_width ← set_outlineWidth pcb
    match profile.polygons.head? with
    | none => .exn "IndexError"
    | some poly => do
      let ps ← process_PolyStep poly (outlineWidthVal outline_width)
      let cs ← processCutouts (outlineWidthVal outline_width) profile.cutouts
      pure (ps ++ cs)

/-- The `pcbdata` aggregate built by `_parse` (ipc2581.py lines 354-385),
restricted to the fields the parser actually fills: `edges`, the four
silkscreen/fabrication drawing lists, the metadata strings, and the optional
tracks pair added when `config.include_tracks` is set (zones are then the
empty placeholder and carry no data).  The source also stores a `footprints`
entry computed by `self.get_Footprints`, a method defined nowhere in the
repository, from the shape dict of `get_Shapes`, whose `RectCenter` branch is
syntactically incomplete in the source; neither is modelled. -/
structure Pcbdata where
  edges : List Dict
  silkscreenF : List Dict
  silkscreenB : List Dict
  fabricationF : List Dict
  fabricationB : List Dict
  title : String
  revision : String
  company : String
  date : String
  tracks : Option (List Dict × List Dict)

/-- `IPC2581Parser._parse` (ipc2581.py lines 323-410).  A document that failed
XML parsing (`ExpatError`, modelled by the `none` input) or failed
`validate_IPC2581` returns `(None, None)` — no data.  Otherwise the tables,
layer names, metadata, outline, per-layer drawings, optional copper tracks
and the component list are extracted in source order, any exception
propagating. -/
noncomputable def _parse (docOpt : Option Document) (config : Config) :
    PyResult (Option Pcbdata × Option (List Component)) :=
  match docOpt with
  | none => .val (none, none)
  | some pcb =>
    if validate_IPC2581 pcb then do
      let lines_Dict ← get_Line_Widths pcb.entryLineDescs
      let layerRefs := get_LayerNames pcb.layers
      match layerRefs with
      | (TopCu, BotCu, TopSilk, BotSilk, TopASM, BotASM) => do
        let md ← get_Metadata pcb.stepRefNames
        let edges ← get_Board_Outline pcb
        let silkF ← get_LayerDrawings pcb.layerFeatures TopSilk lines_Dict
        let silkB ← get_LayerDrawings pcb.layerFeatures BotSilk lines_Dict
        let fabF ← get_LayerDrawings pcb.layerFeatures TopASM lines_Dict
        let fabB ← get_LayerDrawings pcb.layerFeatures BotASM lines_Dict
        let tracks ← if config.include_tracks then do
            let tF ← get_LayerDrawings pcb.layerFeatures TopCu lines_Dict
            let tB ← get_LayerDrawings pcb.layerFeatures BotCu lines_Dict
            pure (some (tF, tB))
          else pure none
        let components := extractComponents pcb.components
        pure (some ⟨edges, silkF, silkB, fabF, fabB,
                    md.1, md.2.1, md.2.2.1, md.2.2.2, tracks⟩,
              some components)
    else .val (none, none)

/-- Inner fold of `IPC2581Parser.get_extra_field_data` (ipc2581.py lines
51-56): one component's `extra_fields` items are added to the field-name set
and merged into that component's per-reference dict. -/
def extraFieldFold (acc : List String × List (String × String))
    (kv : String × String) : List String × List (String × String) :=
  (setAdd acc.1 kv.1, pyDictSet acc.2 kv.1 kv.2)

/-- Outer fold of `IPC2581Parser.get_extra_field_data` (ipc2581.py lines
48-56): `comp_dict.setdefault(c.ref, ...)` fetches the existing per-reference
dict (or starts an empty one) and the updated dict is stored back under
`c.ref`. -/
def extraFieldData (components : List Component) :
    List String × List (String × List (String × String)) :=
  components.foldl (fun acc c =>
    let ref_fields := (pyDictGet? acc.2 c.ref).getD []
    let inner := c.extra_fields.foldl extraFieldFold (acc.1, ref_fields)
    (inner.1, pyDictSet acc.2 c.ref inner.2)) ([], [])

/-- `IPC2581Parser.get_extra_field_data` (ipc2581.py lines 43-58): when the
requested file's absolute path differs from the parser's own input file's
absolute path the method returns `None` at once; only a matching path
re-parses and re-derives the field table from the full component set
(iterating over a failed parse's `None` component list raises `TypeError`).
The `os.path.abspath` resolution is external state and is passed in as a
function. -/
noncomputable def get_extra_field_data (abspath : String → String)
    (self_file_name : String) (docOpt : Option Document) (config : Config)
    (file_name : String) :
    PyResult (Option (List String × List (String × List (String × String)))) :=
  if abspath file_name ≠ abspath self_file_name then .val none
  else
    match _parse docOpt config with
    | .exn m => .exn m
    | .val (_, none) => .exn "TypeError"
    | .val (_, some components) => .val (some (extraFieldData components))

/-- The radius component of a successful `convert_PolyStepCurve` result. -/
def arcRadius : PyResult (ℝ × ℝ × ℝ) → Option ℝ
  | .val r => some r.1
  | .exn _ => none

/-- The radius `convert_PolyStepCurve` computes from a single spoke with
offsets `(dx, dy)`: the absolute value of the nonzero component when the
spoke is axis-aligned, the Euclidean norm otherwise (ipc2581.py lines
154-169 for the start spoke, 180-195 for the end spoke). -/
noncomputable def spokeRadius (dx dy : ℝ) : ℝ :=
  if dx = 0 ∨ dy = 0 then (if dx = 0 then |dy| else |dx|)
  else Real.sqrt (|dx| ^ 2 + |dy| ^ 2)

/-- The value of the last attribute pair named `k` in an ordered attribute
list, if any: the reference "last write wins" reading used to specify
`get_Component_Val` and `build_extra_fields` (a later pair named `k` shadows
every earlier one). -/
def lastAttrValue : List (String × String) → String → Option String
  | [], _ => none
  | e :: rest, k =>
    match lastAttrValue rest k with
    | some v => some v
    | none => if e.1 = k then some e.2 else none

/-- The segment dict emitted by `process_PolyStep` for a line from `(ax, ay)`
to `(bx, by2)`: the stroke width is stored under the misspelled key `wdith`
(ipc2581.py line 235). -/
def segDict (ax ay bx by2 : ℝ) (w : PyVal) : Dict :=
  [("type", PyVal.str "segment"), ("start", PyVal.pt ax ay),
   ("end", PyVal.pt bx by2), ("wdith", w)]

/-- C9: for every document, calling the layer drawing extractor with an
absent (`None`) layer name returns an empty sequence of drawings without
raising any error. -/
theorem get_LayerDrawings_absent_layer (features : List LayerFeature)
    (lines : List (String × String)) :
    get_LayerDrawings features none lines = PyResult.val [] := rfl

/-- C1: on the arc with start `(1,0)`, center `(0,0)`, end `(0,1)` and
`clockwise=false`, both spokes are axis-aligned, so `convert_PolyStepCurve`
assigns `angle1`/`angle2` but never `startAngle`/`endAngle` and the return
statement raises `UnboundLocalError` instead of returning the radius-1 arc the
specification requires. -/
theorem convert_PolyStepCurve_axis_aligned_crash :
    convert_PolyStepCurve 1 0 0 0 0 1 "false"
      = PyResult.exn "UnboundLocalError" := by
  simp only [convert_PolyStepCurve]
  norm_num

/-- C5: if document validation fails (root tag differs from `IPC-2581`, or
the revision attribute compares newer than the single supported letter `C`),
`_parse` returns no data: no partially populated board model or component
list. -/
theorem parse_invalid_returns_no_data (pcb : Document) (config : Config)
    (h : pcb.rootTag ≠ "IPC-2581" ∨ "C" < pcb.rootRevision) :
    _parse (some pcb) config = PyResult.val (none, none) := by
  have hv : validate_IPC2581 pcb = false := by
    unfold validate_IPC2581
    by_cases ht : pcb.rootTag ≠ "IPC-2581"
    · simp [ht]
    · rcases h with h | h
      · exact absurd h ht
      · simp [ht, h]
  simp [_parse, hv]

/-- Concrete instance of C5: a document whose root tag is `html` parses to
no data. -/
theorem parse_invalid_returns_no_data_witness :
    _parse (some ⟨"html", "A", [], [], [], [], [], [], []⟩) ⟨false⟩
      = PyResult.val (none, none) :=
  parse_invalid_returns_no_data _ _ (Or.inl (by decide))

/-- C10: a call to `get_extra_field_data` with a file name whose absolute
path differs from the parser's own input file's absolute path returns `None`
(no field list, no per-reference mapping); only a matching path triggers
re-derivation from the component set. -/
theorem get_extra_field_data_other_file (abspath : String → String)
    (self_file_name : String) (docOpt : Option Document) (config : Config)
    (file_name : String) (h : abspath file_name ≠ abspath self_file_name) :
    get_extra_field_data abspath self_file_name docOpt config file_name
      = PyResult.val none := by
  simp only [get_extra_field_data]
  rw [if_pos h]

/-- Concrete instance of C10: asking for `other.xml` when the parser was
created on `board.xml` yields `None`. -/
theorem get_extra_field_data_other_file_witness :
    get_extra_field_data (fun s => s) "board.xml" none ⟨false⟩ "other.xml"
      = PyResult.val none :=
  get_extra_field_data_other_file (fun s => s) "board.xml" none ⟨false⟩
    "other.xml" (by decide)

/-- C2: the unit resolver never returns a width for any unit string —
`set_outlineWidth` misspells the minidom query on its first line and raises
`AttributeError` on every invocation, so it neither returns the constants
`0.005`/`0.127`/`127.0` for the three valid units nor raises an
`InvalidUnit`-style error for any other string: its unit table is dead code
(which, moreover, has no `else` branch). -/
theorem set_outlineWidth_attribute_error (pcb : Document) :
    set_outlineWidth pcb = PyResult.exn "AttributeError" := rfl

/-- C4 as stated is false: on the arc from `(0,0)` to `(2,3)` around `(3,4)`
(start-spoke radius `√25`, end-spoke radius `√2`), `convert_PolyStepCurve`
returns the START-spoke radius, not the radius computed from the end spoke:
the general end-spoke branch never reassigns `radius`. -/
theorem convert_PolyStepCurve_radius_not_end_spoke :
    arcRadius (convert_PolyStepCurve 0 0 3 4 2 3 "true")
      ≠ some (spokeRadius ((3 : ℝ) - 2) ((4 : ℝ) - 3)) := by
  have hres : arcRadius (convert_PolyStepCurve 0 0 3 4 2 3 "true")
      = some (Real.sqrt 25) := by
    simp only [convert_PolyStepCurve]
    norm_num [arcRadius]
  have e2 : spokeRadius ((3 : ℝ) - 2) ((4 : ℝ) - 3) = Real.sqrt 2 := by
    simp only [spokeRadius]
    norm_num
  rw [hres, e2]
  have hl : Real.sqrt 2 < Real.sqrt 25 :=
    Real.sqrt_lt_sqrt (by norm_num) (by norm_num)
  exact fun hEq => ne_of_gt hl (Option.some_injective ℝ hEq)

/-- C4 amended: for an arc whose two spoke radii differ, when all four spoke
offsets are nonzero (the only inputs on which the conversion returns at all,
see C1) the input is accepted as-is and the radius in the result is the one
computed from the START spoke; the end spoke overwrites the radius only in
its axis-aligned branch, which never reaches the return. -/
theorem convert_PolyStepCurve_start_spoke_radius
    (startX startY ctrX ctrY endX endY : ℝ) (cw : String)
    (h1 : ctrX - startX ≠ 0) (h2 : ctrY - startY ≠ 0)
    (h3 : ctrX - endX ≠ 0) (h4 : ctrY - endY ≠ 0)
    (hdiff : spokeRadius (ctrX - startX) (ctrY - startY)
      ≠ spokeRadius (ctrX - endX) (ctrY - endY)) :
    arcRadius (convert_PolyStepCurve startX startY ctrX ctrY endX endY cw)
      = some (Real.sqrt (|ctrX - startX| ^ 2 + |ctrY - startY| ^ 2)) := by
  simp only [convert_PolyStepCurve]
  rw [if_neg (not_or.mpr ⟨h1, h2⟩), if_neg (not_or.mpr ⟨h3, h4⟩)]
  by_cases hcw : cw = "true" <;> simp [hcw, arcRadius]

/-- Concrete instance of the amended C4: the arc from `(0,0)` to `(2,3)`
around `(3,4)` keeps the start-spoke radius `√(3² + 4²)`. -/
theorem convert_PolyStepCurve_start_spoke_radius_witness :
    arcRadius (convert_PolyStepCurve 0 0 3 4 2 3 "true")
      = some (Real.sqrt (|(3 : ℝ) - 0| ^ 2 + |(4 : ℝ) - 0| ^ 2)) :=
  convert_PolyStepCurve_start_spoke_radius 0 0 3 4 2 3 "true"
    (by norm_num) (by norm_num) (by norm_num) (by norm_num)
    (by
      have e1 : spokeRadius ((3 : ℝ) - 0) ((4 : ℝ) - 0) = Real.sqrt 25 := by
        simp only [spokeRadius]
        norm_num
      have e2 : spokeRadius ((3 : ℝ) - 2) ((4 : ℝ) - 3) = Real.sqrt 2 := by
        simp only [spokeRadius]
        norm_num
      rw [e1, e2]
      exact ne_of_gt (Real.sqrt_lt_sqrt (by norm_num) (by norm_num)))

/-- C3: feeding `process_PolyStep` the square `Begin(0,0)`, `LineTo(1,0)`,
`LineTo(1,1)`, `LineTo(0,1)`, `LineTo(0,0)` with stroke width `w` yields
exactly 4 segment dicts whose endpoints chain — but every one of them stores
the stroke width under the misspelled key `wdith`, so no segment carries a
`width` entry as the specification requires (the arc dicts do). -/
theorem process_PolyStep_square (w : PyVal) :
    process_PolyStep
        [PolyStepNode.polyBegin 0 0, PolyStepNode.polyStepSegment 1 0,
         PolyStepNode.polyStepSegment 1 1, PolyStepNode.polyStepSegment 0 1,
         PolyStepNode.polyStepSegment 0 0] w
      = PyResult.val [segDict 0 0 1 0 w, segDict 1 0 1 1 w,
                      segDict 1 1 0 1 w, segDict 0 1 0 0 w] ∧
    ∀ ax ay bx by2 : ℝ,
      pyDictGet? (segDict ax ay bx by2 w) "width" = none ∧
      pyDictGet? (segDict ax ay bx by2 w) "wdith" = some w :=
  ⟨rfl, fun _ _ _ _ => ⟨rfl, rfl⟩⟩

/-- A `(side, layerFunction)` combination that `get_LayerNames` maps to one
of the six layer-role slots. -/
def mappedLayer (L : Layer) : Prop :=
  (L.side = "TOP" ∨ L.side = "BOTTOM") ∧
    (L.layerFunction = "DOCUMENT" ∨ L.layerFunction = "CONDUCTOR" ∨
      L.layerFunction = "ASSEMBLY")

/-- A layer whose `(side, layerFunction)` pair is unmapped leaves all six
slots unchanged. -/
theorem layerStep_unmapped (acc : LayerRefs) (L : Layer)
    (h : ¬ mappedLayer L) : layerStep acc L = acc := by
  obtain ⟨tc, bc, ts, bs, ta, ba⟩ := acc
  unfold mappedLayer at h
  push_neg at h
  simp only [layerStep]
  by_cases hs : L.side = "TOP"
  · obtain ⟨f1, f2, f3⟩ := h (Or.inl hs)
    simp [hs, f1, f2, f3]
  · by_cases hb : L.side = "BOTTOM"
    · obtain ⟨f1, f2, f3⟩ := h (Or.inr hb)
      simp [hs, hb, f1, f2, f3]
    · simp [hs, hb]

/-- C7: a document whose only layer has `side=TOP`, `layerFunction=CONDUCTOR`
and `name=L1` resolves `TopCuRef` to `L1` and leaves the other five roles
`None`; and any layer with an unknown or unmapped `(side, layerFunction)`
combination is ignored without error, wherever it occurs. -/
theorem get_LayerNames_role_resolution :
    get_LayerNames [⟨"TOP", "CONDUCTOR", "L1"⟩]
      = (some "L1", none, none, none, none, none) ∧
    ∀ (pre : List Layer) (L : Layer) (post : List Layer), ¬ mappedLayer L →
      get_LayerNames (pre ++ L :: post) = get_LayerNames (pre ++ post) := by
  constructor
  · rfl
  · intro pre L post h
    simp only [get_LayerNames, List.foldl_append, List.foldl_cons,
      layerStep_unmapped _ L h]

/-- Concrete instance of C7's tolerance clause: an inner plane layer, which
maps to no role, is ignored. -/
theorem get_LayerNames_role_resolution_witness :
    get_LayerNames ([] ++ ⟨"INNER", "PLANE", "L2"⟩ :: []) = get_LayerNames ([] ++ []) :=
  get_LayerNames_role_resolution.2 [] ⟨"INNER", "PLANE", "L2"⟩ []
    (by unfold mappedLayer; decide)

/-- Updating one key of a Python dict changes exactly that key's lookup. -/
theorem pyDictGet?_set {α : Type} (d : List (String × α)) (k q : String) (v : α) :
    pyDictGet? (pyDictSet d k v) q = if q = k then some v else pyDictGet? d q := by
  induction d with
  | nil =>
    by_cases hq : q = k
    · subst hq; simp [pyDictSet, pyDictGet?]
    · simp [pyDictSet, pyDictGet?, hq, Ne.symm hq]
  | cons hd tl ih =>
    obtain ⟨k0, v0⟩ := hd
    by_cases hk : k0 = k
    · subst hk
      by_cases hq : q = k0
      · subst hq; simp [pyDictSet, pyDictGet?]
      · simp [pyDictSet, pyDictGet?, hq, Ne.symm hq]
    · by_cases hq : q = k
      · subst hq
        simp [pyDictSet, pyDictGet?, hk, ih, Ne.symm hk]
      · simp [pyDictSet, pyDictGet?, hk, hq, ih]

/-- Folding `pyDictSet` over an attribute list realizes last-write-wins:
a key's final value is the value of the last attribute of that name, falling
back to the starting dict. -/
theorem pyDictGet?_foldl_set (attrs : List (String × String))
    (d : List (String × String)) (q : String) :
    pyDictGet? (attrs.foldl (fun d n => pyDictSet d n.1 n.2) d) q
      = (lastAttrValue attrs q).or (pyDictGet? d q) := by
  induction attrs generalizing d with
  | nil => simp [lastAttrValue]
  | cons e rest ih =>
    simp only [List.foldl_cons, ih, pyDictGet?_set]
    rw [show lastAttrValue (e :: rest) q = (match lastAttrValue rest q with
      | some v => some v
      | none => if e.1 = q then some e.2 else none) from rfl]
    cases h : lastAttrValue rest q with
    | some v => rfl
    | none =>
      by_cases he : e.1 = q
      · rw [if_pos he.symm, if_pos he]; rfl
      · rw [if_neg (Ne.symm he), if_neg he]

/-- The `VALUE`-preferring fold of `get_Component_Val`: the result is the
last `VALUE` attribute's value if one exists, else the starting value. -/
theorem foldl_value_resolution (attrs : List (String × String)) (v0 : String) :
    attrs.foldl (fun val e => if e.1 = "VALUE" then e.2 else val) v0
      = (lastAttrValue attrs "VALUE").getD v0 := by
  induction attrs generalizing v0 with
  | nil => simp [lastAttrValue]
  | cons e rest ih =>
    simp only [List.foldl_cons, ih]
    rw [show lastAttrValue (e :: rest) "VALUE" = (match lastAttrValue rest "VALUE" with
      | some v => some v
      | none => if e.1 = "VALUE" then some e.2 else none) from rfl]
    cases h : lastAttrValue rest "VALUE" with
    | some v => rfl
    | none => by_cases he : e.1 = "VALUE" <;> simp [he]

/-- C8: for every placed-component element, value resolution prefers the last
`NonstandardAttribute` named `VALUE` over the default `part` attribute, and
all nonstandard attributes (including `VALUE` itself) are captured verbatim
in the extra-fields mapping with last-write-wins on duplicate names. -/
theorem component_value_and_extra_fields (c : ComponentElem) (k : String) :
    get_Component_Val c
      = (lastAttrValue c.nonstandardAttributes "VALUE").getD c.part ∧
    pyDictGet? (build_extra_fields c.nonstandardAttributes) k
      = lastAttrValue c.nonstandardAttributes k := by
  refine ⟨foldl_value_resolution _ _, ?_⟩
  have h := pyDictGet?_foldl_set c.nonstandardAttributes [] k
  simpa [build_extra_fields, pyDictGet?] using h

/-- If any polyline in the list references a line-style id that is absent
from the line-width dict, processing the list ends in an exception. -/
theorem processPolylines_dangling (lines : List (String × String))
    (polys : List Polyline) (poly : Polyline) (i : String)
    (hp : poly ∈ polys) (hi : poly.lineDescRefIds.head? = some i)
    (hm : pyDictGet? lines i = none) :
    (processPolylines lines polys).isExn = true := by
  induction polys with
  | nil => cases hp
  | cons q rest ih =>
    rcases List.mem_cons.mp hp with heq | hmem
    · subst heq
      simp only [processPolylines, hi, hm]
      rfl
    · simp only [processPolylines]
      cases hq : q.lineDescRefIds.head? with
      | none => rfl
      | some j =>
        cases hlj : pyDictGet? lines j with
        | none => simp [hlj, PyResult.isExn]
        | some w =>
          cases hps : process_PolyStep q.steps (PyVal.str w) with
          | exn m => simp [hlj, hps, PyResult.isExn]
          | val ds =>
            cases hrest : processPolylines lines rest with
            | exn m => simp [hlj, hps, hrest, PyResult.isExn]
            | val more =>
              have hih := ih hmem
              rw [hrest] at hih
              exact absurd hih (by simp [PyResult.isExn])

/-- C6: if some polyline on a matching layer feature references a line-style
id absent from the line-width table, `get_LayerDrawings` raises (the lookup
`lines[LineName]` is a `KeyError`); it never substitutes width `0` and never
silently skips the polyline. -/
theorem get_LayerDrawings_dangling_reference (features : List LayerFeature)
    (lines : List (String × String)) (nm : String) (F : LayerFeature)
    (poly : Polyline) (i : String)
    (hF : F ∈ features) (hr : F.layerRef = nm) (hp : poly ∈ F.polylines)
    (hi : poly.lineDescRefIds.head? = some i)
    (hm : pyDictGet? lines i = none) :
    (get_LayerDrawings features (some nm) lines).isExn = true := by
  simp only [get_LayerDrawings]
  induction features with
  | nil => cases hF
  | cons G rest ih =>
    rcases List.mem_cons.mp hF with heq | hmem
    · subst heq
      simp only [processLayerFeatures, if_pos hr]
      cases hpp : processPolylines lines F.polylines with
      | exn m => simp [hpp, PyResult.isExn]
      | val ds =>
        have hd := processPolylines_dangling lines F.polylines poly i hp hi hm
        rw [hpp] at hd
        exact absurd hd (by simp [PyResult.isExn])
    · simp only [processLayerFeatures]
      by_cases hG : G.layerRef = nm
      · rw [if_pos hG]
        cases hpp : processPolylines lines G.polylines with
        | exn m => simp [hpp, PyResult.isExn]
        | val ds =>
          cases hrest : processLayerFeatures lines nm rest with
          | exn m => simp [hpp, hrest, PyResult.isExn]
          | val more =>
            have hih := ih hmem
            rw [hrest] at hih
            exact absurd hih (by simp [PyResult.isExn])
      · rw [if_neg hG]
        exact ih hmem

/-- Concrete instance of C6: one silkscreen polyline referencing the
undefined line style `style9` makes the extraction raise. -/
theorem get_LayerDrawings_dangling_reference_witness :
    (get_LayerDrawings [⟨"SILKSCREEN_TOP", [⟨["style9"], []⟩]⟩]
        (some "SILKSCREEN_TOP") []).isExn = true :=
  get_LayerDrawings_dangling_reference
    [⟨"SILKSCREEN_TOP", [⟨["style9"], []⟩]⟩] [] "SILKSCREEN_TOP"
    ⟨"SILKSCREEN_TOP", [⟨["style9"], []⟩]⟩ ⟨["style9"], []⟩ "style9"
    (List.mem_singleton.mpr rfl) rfl (List.mem_singleton.mpr rfl) rfl rfl
